import Mathlib

/-!
Shallow embedding of the conservatory-greenhouse houseplant record service.

The store is the relational state (tables plants, waterings, photos, notes);
each HTTP handler of src/main.py becomes a pure function from the store (and,
where files are involved, a file-system state) to a result together with the
post state.  Calendar dates are day numbers, server-assigned ids are passed
explicitly, and the effect of the single at-import evaluation of date.today()
in models.py / schema.py is an explicit importDay parameter.
-/

namespace Greenhouse

/-- Calendar dates, modelled as day numbers. -/
abbrev Date := Nat

/-- String enum to represent plant states (models.HealthStatus). -/
inductive HealthStatus where
  | healthy
  | sick
  | dead
deriving DecidableEq

/-- A row of the plants table (models.Plant). -/
structure Plant where
  id : Nat
  name : String
  nickname : Option String
  scientific : Option String
  watering_frequency_days : Option Int
  acquisition_date : Date
  health_status : HealthStatus
  parent_id : Option Nat
deriving DecidableEq

/-- A row of the waterings table (models.Watering). -/
structure Watering where
  id : Nat
  plant_id : Nat
  date : Date
deriving DecidableEq

/-- A row of the photos table (models.Photo). -/
structure Photo where
  id : Nat
  plant_id : Nat
  date : Date
  path : String
deriving DecidableEq

/-- A row of the notes table (models.Note). -/
structure Note where
  id : Nat
  plant_id : Nat
  date : Date
  note : String
deriving DecidableEq

/-- The relational state: the four tables of conservatory.db. -/
structure Store where
  plants : List Plant
  waterings : List Watering
  photos : List Photo
  notes : List Note
deriving DecidableEq

/-- Errors surfaced to HTTP callers: HTTPException 404 with its detail
message, or a 422 request-validation failure raised by pydantic before the
handler runs. -/
inductive ApiError where
  | notFound (detail : String)
  | validation
deriving DecidableEq

/-- On-disk state: the set of existing file paths. -/
structure FileSys where
  files : List String
deriving DecidableEq

/-- os.path.exists. -/
def pathExists (fs : FileSys) (p : String) : Bool :=
  fs.files.contains p

/-- pathlib Path(p).name: the final component of a path. -/
def baseName (p : String) : String :=
  (p.splitOn "/").getLastD p

/-- Look a plant up by primary key (db.get / query-filter-first in main.py). -/
def findPlant (s : Store) (id : Nat) : Option Plant :=
  s.plants.find? (fun p => p.id == id)

/-- Request body of POST /plants (schema.PlantCreate): only name is required;
each remaining field is present or absent. -/
structure PlantCreatePayload where
  name : String
  nickname : Option String
  scientific : Option String
  watering_frequency_days : Option Int
  acquisition_date : Option Date
  health_status : Option HealthStatus
deriving DecidableEq

/-- A payload that supplies only the required name field. -/
def namedOnlyPayload (nm : String) : PlantCreatePayload :=
  ⟨nm, none, none, none, none, none⟩

/-- Handler create_plant (main.py).  The pydantic defaults of
schema.PlantBase, acquisition_date = date.today() and health_status =
HEALTHY, were evaluated once when the schema module was imported, so an
absent acquisition_date is filled with the import-day value importDay, not
with the day the request is served; the handler itself reads no clock. -/
def create_plant (importDay : Date) (s : Store) (plant_in : PlantCreatePayload)
    (newId : Nat) : Plant × Store :=
  let plant : Plant :=
    ⟨newId, plant_in.name, plant_in.nickname, plant_in.scientific,
      plant_in.watering_frequency_days,
      plant_in.acquisition_date.getD importDay,
      plant_in.health_status.getD HealthStatus.healthy, none⟩
  (plant, ⟨s.plants ++ [plant], s.waterings, s.photos, s.notes⟩)

/-- The ORM nullifies the parent reference of a surviving child when its
parent row is deleted (the children relationship of models.Plant carries no
delete cascade). -/
def nullifyParent (delId : Nat) (p : Plant) : Plant :=
  if p.parent_id == some delId then
    ⟨p.id, p.name, p.nickname, p.scientific, p.watering_frequency_days,
      p.acquisition_date, p.health_status, none⟩
  else p

/-- Handler delete_plant_by_id (main.py): 404 when the plant is missing;
otherwise the row is removed and the "all, delete-orphan" cascades of
models.Plant remove its waterings, photos and notes, while child plants
survive with the parent reference cleared. -/
def delete_plant_by_id (s : Store) (id : Nat) : Except ApiError Unit × Store :=
  match findPlant s id with
  | none => (Except.error (ApiError.notFound s!"Plant with id {id} not found."), s)
  | some _ =>
      (Except.ok (),
        ⟨(s.plants.filter (fun p => p.id != id)).map (nullifyParent id),
          s.waterings.filter (fun w => w.plant_id != id),
          s.photos.filter (fun q => q.plant_id != id),
          s.notes.filter (fun n => n.plant_id != id)⟩)

/-- Insert one record into a list already sorted by descending key. -/
def insertDesc {α : Type} (key : α → Nat) (x : α) : List α → List α
  | [] => [x]
  | y :: ys => if key x ≤ key y then y :: insertDesc key x ys else x :: y :: ys

/-- Sort by descending key: the ORDER BY date DESC of the nested listing
endpoints of main.py. -/
def sortDesc {α : Type} (key : α → Nat) : List α → List α
  | [] => []
  | x :: xs => insertDesc key x (sortDesc key xs)

/-- Handler get_plant_photos (main.py): 404 when the plant is missing, else
the photos of that plant ordered by date descending, offset start, limit
limit. -/
def get_plant_photos (s : Store) (id start limit : Nat) :
    Except ApiError (List Photo) :=
  match findPlant s id with
  | none => Except.error (ApiError.notFound s!"Plant with id {id} not found.")
  | some _ =>
      Except.ok
        (((sortDesc (fun q => q.date)
            (s.photos.filter (fun q => q.plant_id == id))).drop start).take limit)

/-- get_plant_photos with start and limit omitted: Python defaults
start = 0, limit = 1. -/
def get_plant_photos_default (s : Store) (id : Nat) :
    Except ApiError (List Photo) :=
  get_plant_photos s id 0 1

/-- Handler get_plant_waterings (main.py). -/
def get_plant_waterings (s : Store) (id start limit : Nat) :
    Except ApiError (List Watering) :=
  match findPlant s id with
  | none => Except.error (ApiError.notFound s!"Plant with id {id} not found.")
  | some _ =>
      Except.ok
        (((sortDesc (fun w => w.date)
            (s.waterings.filter (fun w => w.plant_id == id))).drop start).take limit)

/-- get_plant_waterings with start and limit omitted: Python defaults
start = 0, limit = 3. -/
def get_plant_waterings_default (s : Store) (id : Nat) :
    Except ApiError (List Watering) :=
  get_plant_waterings s id 0 3

/-- Handler get_plant_notes (main.py). -/
def get_plant_notes (s : Store) (id start limit : Nat) :
    Except ApiError (List Note) :=
  match findPlant s id with
  | none => Except.error (ApiError.notFound s!"Plant with id {id} not found.")
  | some _ =>
      Except.ok
        (((sortDesc (fun n => n.date)
            (s.notes.filter (fun n => n.plant_id == id))).drop start).take limit)

/-- get_plant_notes with start and limit omitted: Python defaults
start = 0, limit = 3. -/
def get_plant_notes_default (s : Store) (id : Nat) :
    Except ApiError (List Note) :=
  get_plant_notes s id 0 3

/-- Request body of POST /waterings (schema.WateringCreate). -/
structure WateringCreate where
  plant_id : Nat
  date : Date
deriving DecidableEq

/-- Handler create_watering (main.py): 404 and no write when the referenced
plant does not exist, else the watering row is inserted and returned. -/
def create_watering (s : Store) (watering_in : WateringCreate) (newId : Nat) :
    Except ApiError Watering × Store :=
  let pid := watering_in.plant_id
  match findPlant s pid with
  | none => (Except.error (ApiError.notFound s!"Plant with id {pid} not found."), s)
  | some _ =>
      let w : Watering := ⟨newId, pid, watering_in.date⟩
      (Except.ok w, ⟨s.plants, s.waterings ++ [w], s.photos, s.notes⟩)

/-- Handler delete_watering (main.py). -/
def delete_watering (s : Store) (id : Nat) : Except ApiError Unit × Store :=
  match s.waterings.find? (fun w => w.id == id) with
  | none => (Except.error (ApiError.notFound s!"Watering with id {id} not found."), s)
  | some _ =>
      (Except.ok (),
        ⟨s.plants, s.waterings.filter (fun w => w.id != id), s.photos, s.notes⟩)

/-- Response model schema.WateringResponse: id, plant_id and date only. -/
structure WateringResponse where
  id : Nat
  plant_id : Nat
  date : Date
deriving DecidableEq

/-- Request body of POST /notes (schema.NoteCreate). -/
structure NoteCreate where
  plant_id : Nat
  date : Date
  note : String
deriving DecidableEq

/-- Handler create_note (main.py): 404 and no write when the referenced plant
does not exist, else the note row is inserted.  The endpoint is declared with
response_model=schema.WateringResponse, so the reply serialises only the id,
plant_id and date attributes of the created note. -/
def create_note (s : Store) (note_in : NoteCreate) (newId : Nat) :
    Except ApiError WateringResponse × Store :=
  let pid := note_in.plant_id
  match findPlant s pid with
  | none => (Except.error (ApiError.notFound s!"Plant with id {pid} not found."), s)
  | some _ =>
      let n : Note := ⟨newId, pid, note_in.date, note_in.note⟩
      (Except.ok ⟨n.id, n.plant_id, n.date⟩,
        ⟨s.plants, s.waterings, s.photos, s.notes ++ [n]⟩)

/-- Request body of POST /photos (schema.PhotoCreate, built by photo_form). -/
structure PhotoCreate where
  plant_id : Nat
  date : Date
deriving DecidableEq

/-- Handler add_photo (main.py): 404 before any write when the referenced
plant does not exist; otherwise the upload is written under photos/ with a
name derived from the date and the plant name (spaces replaced by
underscores), and the row stores path "static/{file_name}". -/
def add_photo (s : Store) (fs : FileSys) (photo_data : PhotoCreate)
    (newId : Nat) : Except ApiError Photo × Store × FileSys :=
  let pid := photo_data.plant_id
  match findPlant s pid with
  | none =>
      (Except.error (ApiError.notFound s!"Plant with id {pid} not found."), s, fs)
  | some plant =>
      let d := photo_data.date
      let nm := plant.name.replace " " "_"
      let file_name := s!"{d}-{nm}"
      let file_location := "photos/" ++ file_name
      let fs2 : FileSys :=
        ⟨if fs.files.contains file_location then fs.files
          else fs.files ++ [file_location]⟩
      let photo_entry : Photo := ⟨newId, pid, d, "static/" ++ file_name⟩
      (Except.ok photo_entry,
        ⟨s.plants, s.waterings, s.photos ++ [photo_entry], s.notes⟩, fs2)

/-- Event hook archive_deleted_photo (models.py), run before a photo row is
deleted: when the stored path is non-empty and the file exists, try to move
it into deleted_photos/ keeping the base name; every exception of the
attempt (modelled by moveOk = false) is caught and only logged, so the hook
always returns a file-system state and never fails the deletion. -/
def archive_deleted_photo (fs : FileSys) (moveOk : Bool) (target : Photo) :
    FileSys :=
  if (target.path != "") && pathExists fs target.path then
    if moveOk then
      ⟨(fs.files.filter (fun q => q != target.path)) ++
        ["deleted_photos/" ++ baseName target.path]⟩
    else fs
  else fs

/-- Handler delete_photo (main.py): 404 when the photo row is missing, else
the before_delete hook runs and the row is removed. -/
def delete_photo (s : Store) (fs : FileSys) (moveOk : Bool) (id : Nat) :
    Except ApiError Unit × Store × FileSys :=
  match s.photos.find? (fun q => q.id == id) with
  | none => (Except.error (ApiError.notFound s!"Photo with id {id} not found."), s, fs)
  | some p =>
      (Except.ok (),
        ⟨s.plants, s.waterings, s.photos.filter (fun q => q.id != id), s.notes⟩,
        archive_deleted_photo fs moveOk p)

/-- Raw body of PATCH /notes/{id}: each field present or absent. -/
structure NoteUpdatePayload where
  plant_id : Option Nat
  date : Option Date
  note : Option String
deriving DecidableEq

/-- Validated body (schema.NoteUpdate): unlike schema.PlantUpdate, all three
fields are declared required, so pydantic rejects any body missing one of
them before the handler runs. -/
structure NoteUpdate where
  plant_id : Nat
  date : Date
  note : String
deriving DecidableEq

/-- Request validation of schema.NoteUpdate. -/
def validateNoteUpdate (payload : NoteUpdatePayload) : Except ApiError NoteUpdate :=
  match payload.plant_id, payload.date, payload.note with
  | some pid, some d, some t => Except.ok ⟨pid, d, t⟩
  | _, _, _ => Except.error ApiError.validation

/-- Handler update_note_by_id (main.py): 404 when the note is missing, else
every field of the validated body is applied with setattr (all three are
always set, since validation demands them) with no check that the new
plant_id references an existing plant. -/
def update_note_by_id (s : Store) (id : Nat) (note_in : NoteUpdate) :
    Except ApiError Note × Store :=
  match s.notes.find? (fun n => n.id == id) with
  | none => (Except.error (ApiError.notFound s!"Note with id {id} not found."), s)
  | some n =>
      let n2 : Note := ⟨n.id, note_in.plant_id, note_in.date, note_in.note⟩
      (Except.ok n2,
        ⟨s.plants, s.waterings, s.photos,
          s.notes.map (fun m => if m.id == id then n2 else m)⟩)

/-- The full PATCH /notes/{id} endpoint: body validation, then the handler. -/
def patch_note (s : Store) (id : Nat) (payload : NoteUpdatePayload) :
    Except ApiError Note × Store :=
  match validateNoteUpdate payload with
  | Except.error e => (Except.error e, s)
  | Except.ok note_in => update_note_by_id s id note_in

/-- Handler get_note_by_id (main.py).  Its 404 detail literally reads
"Plant with id {id} not found." although the missing entity is a note. -/
def get_note_by_id (s : Store) (id : Nat) : Except ApiError Note :=
  match s.notes.find? (fun n => n.id == id) with
  | none => Except.error (ApiError.notFound s!"Plant with id {id} not found.")
  | some n => Except.ok n

/-- Handler delete_note (main.py). -/
def delete_note (s : Store) (id : Nat) : Except ApiError Unit × Store :=
  match s.notes.find? (fun n => n.id == id) with
  | none => (Except.error (ApiError.notFound s!"Note with id {id} not found."), s)
  | some _ =>
      (Except.ok (),
        ⟨s.plants, s.waterings, s.photos, s.notes.filter (fun n => n.id != id)⟩)

/-- One photo object of the parsed JSON body of GET /plants. -/
structure PhotoJson where
  id : Nat
  plant_id : Nat
  date : String
  path : String
deriving DecidableEq

/-- One plant object of the parsed JSON body of GET /plants. -/
structure PlantJson where
  id : Nat
  name : String
  photos : List PhotoJson
deriving DecidableEq

/-- A completed HTTP response of the backing GET /plants call. -/
structure HttpResponse where
  status_code : Nat
  body : List PlantJson
deriving DecidableEq

/-- A transport failure: requests.get raised instead of returning. -/
inductive TransportError where
  | connError
deriving DecidableEq

/-- GraphQL Photo type (src/graphql/schema.py). -/
structure GqlPhoto where
  plant_id : Nat
  id : Nat
  path : String
  date : String
deriving DecidableEq

/-- GraphQL Plant type (src/graphql/schema.py). -/
structure GqlPlant where
  id : Nat
  name : String
  photos : List GqlPhoto
deriving DecidableEq

/-- Resolver get_plants (src/graphql/schema.py): it starts from an empty
list and reshapes the JSON body only when the response status is 200, so any
completed non-200 response yields the empty list; the call to requests.get
sits outside any try block, so a raised transport error propagates to the
caller unchanged. -/
def get_plants (response : Except TransportError HttpResponse) :
    Except TransportError (List GqlPlant) :=
  match response with
  | Except.error e => Except.error e
  | Except.ok resp =>
      Except.ok
        (if resp.status_code == 200 then
          resp.body.map (fun plant =>
            ⟨plant.id, plant.name,
              plant.photos.map (fun photo =>
                ⟨photo.plant_id, photo.id, photo.path, photo.date⟩)⟩)
        else [])

/-- The empty relational state. -/
def emptyStore : Store := ⟨[], [], [], []⟩

/-- Sample plant, acquired on day 100. -/
def fern : Plant := ⟨1, "Fern", none, none, none, 100, HealthStatus.healthy, none⟩

/-- Sample child plant, propagated from fern (parent_id = 1). -/
def child1 : Plant :=
  ⟨2, "Fern Jr", none, none, none, 101, HealthStatus.healthy, some 1⟩

/-- Sample waterings: three for plant 1 (dates 3, 9, 6) and one for plant 2. -/
def w1 : Watering := ⟨1, 1, 3⟩

def w2 : Watering := ⟨2, 1, 9⟩

def w3 : Watering := ⟨3, 1, 6⟩

def w4 : Watering := ⟨4, 2, 7⟩

/-- Sample photo of plant 1. -/
def ph1 : Photo := ⟨1, 1, 5, "static/5-Fern"⟩

/-- Sample note on plant 1. -/
def note1 : Note := ⟨1, 1, 10, "keep me"⟩

/-- Sample store used by the concrete witnesses. -/
def s4 : Store := ⟨[fern, child1], [w1, w2, w3, w4], [ph1], [note1]⟩

/-- What deleting a plant leaves behind: the delete succeeds, no watering,
photo or note of that plant remains, and every distinct child record
survives with its identity and name, its parent reference cleared. -/
def PlantDeleteSpec (s : Store) (id : Nat) : Prop :=
  (delete_plant_by_id s id).1 = Except.ok () ∧
  ((delete_plant_by_id s id).2.waterings.filter (fun w => w.plant_id == id)) = [] ∧
  ((delete_plant_by_id s id).2.photos.filter (fun q => q.plant_id == id)) = [] ∧
  ((delete_plant_by_id s id).2.notes.filter (fun n => n.plant_id == id)) = [] ∧
  ∀ c, c ∈ s.plants → c.parent_id = some id → c.id ≠ id →
    ∃ c2, c2 ∈ (delete_plant_by_id s id).2.plants ∧
      c2.id = c.id ∧ c2.name = c.name ∧ c2.parent_id = none

/-- Creating a watering, note or photo against a missing plant fails with
NotFound and leaves both the store and the file system exactly as they were. -/
def CreateGuardSpec (s : Store) (fs : FileSys) (win : WateringCreate)
    (nin : NoteCreate) (pin : PhotoCreate) (i j k : Nat) : Prop :=
  (∃ m, create_watering s win i = (Except.error (ApiError.notFound m), s)) ∧
  (∃ m, create_note s nin j = (Except.error (ApiError.notFound m), s)) ∧
  (∃ m, add_photo s fs pin k = (Except.error (ApiError.notFound m), s, fs))

/-- The nested listings of one plant: each returns a start/limit page of its
records sorted by date descending; the pages with omitted parameters use
offset 0 and limit 1 (photos) or 3 (waterings, notes); and a waterings page
with start = 1 and limit = 2 is exactly the 2nd and 3rd most recent. -/
def ListingSpec (s : Store) (id start limit : Nat) : Prop :=
  get_plant_waterings s id start limit =
    Except.ok (((sortDesc (fun w => w.date)
      (s.waterings.filter (fun w => w.plant_id == id))).drop start).take limit) ∧
  get_plant_photos s id start limit =
    Except.ok (((sortDesc (fun q => q.date)
      (s.photos.filter (fun q => q.plant_id == id))).drop start).take limit) ∧
  get_plant_notes s id start limit =
    Except.ok (((sortDesc (fun n => n.date)
      (s.notes.filter (fun n => n.plant_id == id))).drop start).take limit) ∧
  List.Pairwise (fun a b => b.date ≤ a.date)
    (sortDesc (fun w => w.date) (s.waterings.filter (fun w => w.plant_id == id))) ∧
  List.Pairwise (fun a b => b.date ≤ a.date)
    (sortDesc (fun q => q.date) (s.photos.filter (fun q => q.plant_id == id))) ∧
  List.Pairwise (fun a b => b.date ≤ a.date)
    (sortDesc (fun n => n.date) (s.notes.filter (fun n => n.plant_id == id))) ∧
  List.Perm
    (sortDesc (fun w => w.date) (s.waterings.filter (fun w => w.plant_id == id)))
    (s.waterings.filter (fun w => w.plant_id == id)) ∧
  get_plant_waterings_default s id =
    Except.ok (((sortDesc (fun w => w.date)
      (s.waterings.filter (fun w => w.plant_id == id))).drop 0).take 3) ∧
  get_plant_photos_default s id =
    Except.ok (((sortDesc (fun q => q.date)
      (s.photos.filter (fun q => q.plant_id == id))).drop 0).take 1) ∧
  get_plant_notes_default s id =
    Except.ok (((sortDesc (fun n => n.date)
      (s.notes.filter (fun n => n.plant_id == id))).drop 0).take 3) ∧
  ∀ a b c rest,
    sortDesc (fun w => w.date) (s.waterings.filter (fun w => w.plant_id == id)) =
      a :: b :: c :: rest →
    get_plant_waterings s id 1 2 = Except.ok [b, c]

/-- Deleting an existing photo always succeeds: the row is removed, the
file-system effect is exactly the best-effort archive hook, and when the
backing file is missing the hook leaves the file system untouched. -/
def PhotoDeleteSpec (s : Store) (fs : FileSys) (moveOk : Bool) (id : Nat)
    (p : Photo) : Prop :=
  delete_photo s fs moveOk id =
    (Except.ok (),
      ⟨s.plants, s.waterings, s.photos.filter (fun q => q.id != id), s.notes⟩,
      archive_deleted_photo fs moveOk p) ∧
  ((delete_photo s fs moveOk id).2.1.photos.filter (fun q => q.id == id)) = [] ∧
  (pathExists fs p.path = false → archive_deleted_photo fs moveOk p = fs)

/-- A full-body note update can re-point an existing note at a plant id that
no plant has: the operation succeeds, the store still has no such plant, and
the stored note now carries the dangling plant_id. -/
def NoteRepointSpec (s : Store) (id pid : Nat) (d : Date) (t : String)
    (nid : Nat) : Prop :=
  (patch_note s id ⟨some pid, some d, some t⟩).1 =
    Except.ok ⟨nid, pid, d, t⟩ ∧
  findPlant (patch_note s id ⟨some pid, some d, some t⟩).2 pid = none ∧
  ∃ m, m ∈ (patch_note s id ⟨some pid, some d, some t⟩).2.notes ∧
    m.id = nid ∧ m.plant_id = pid

/-- Records whose key survived one filter never match the complementary
filter: the rows referencing a deleted parent are gone for good. -/
theorem filter_after_remove {α : Type} (key : α → Nat) (id : Nat) (l : List α) :
    ((l.filter (fun a => key a != id)).filter (fun a => key a == id)) = [] := by
  simp [List.filter_filter]

/-- Descending insertion permutes the inserted element into the list. -/
theorem insertDesc_perm {α : Type} (key : α → Nat) (x : α) (l : List α) :
    List.Perm (insertDesc key x l) (x :: l) := by
  induction l with
  | nil => exact List.Perm.refl _
  | cons y ys ih =>
      rw [insertDesc]
      by_cases hxy : key x ≤ key y
      · rw [if_pos hxy]
        exact (ih.cons y).trans (List.Perm.swap x y ys)
      · rw [if_neg hxy]

/-- Descending insertion preserves descending sortedness. -/
theorem pairwise_insertDesc {α : Type} (key : α → Nat) (x : α) (l : List α)
    (h : l.Pairwise (fun a b => key b ≤ key a)) :
    (insertDesc key x l).Pairwise (fun a b => key b ≤ key a) := by
  induction l with
  | nil => simp [insertDesc]
  | cons y ys ih =>
      rw [insertDesc]
      rcases List.pairwise_cons.mp h with ⟨hy, hys⟩
      by_cases hxy : key x ≤ key y
      · rw [if_pos hxy]
        refine List.pairwise_cons.mpr ⟨?_, ih hys⟩
        intro a ha
        rcases List.mem_cons.mp ((insertDesc_perm key x ys).mem_iff.mp ha) with
          hax | hays
        · exact hax ▸ hxy
        · exact hy a hays
      · rw [if_neg hxy]
        have hyx : key y ≤ key x := Nat.le_of_not_le hxy
        refine List.pairwise_cons.mpr ⟨?_, h⟩
        intro a ha
        rcases List.mem_cons.mp ha with hay | hays
        · exact hay ▸ hyx
        · exact Nat.le_trans (hy a hays) hyx

/-- The descending sort permutes its input. -/
theorem sortDesc_perm {α : Type} (key : α → Nat) (l : List α) :
    List.Perm (sortDesc key l) l := by
  induction l with
  | nil => exact List.Perm.refl _
  | cons x xs ih =>
      rw [sortDesc]
      exact (insertDesc_perm key x (sortDesc key xs)).trans (ih.cons x)

/-- The descending sort is sorted by descending key. -/
theorem sortDesc_pairwise {α : Type} (key : α → Nat) (l : List α) :
    (sortDesc key l).Pairwise (fun a b => key b ≤ key a) := by
  induction l with
  | nil => simp [sortDesc]
  | cons x xs ih =>
      rw [sortDesc]
      exact pairwise_insertDesc key x _ ih

/-- C1: deleting a stored plant removes every watering, photo and note whose
plant_id references it, while every child plant record (parent_id referencing
the deleted plant) continues to exist. -/
theorem delete_plant_cascade_keeps_children (s : Store) (id : Nat) (p : Plant)
    (h : findPlant s id = some p) : PlantDeleteSpec s id := by
  unfold PlantDeleteSpec delete_plant_by_id
  rw [h]
  refine ⟨rfl, ?_, ?_, ?_, ?_⟩
  · exact filter_after_remove (fun w => w.plant_id) id s.waterings
  · exact filter_after_remove (fun q => q.plant_id) id s.photos
  · exact filter_after_remove (fun n => n.plant_id) id s.notes
  · intro c hc hpar hcid
    refine ⟨nullifyParent id c, ?_, ?_, ?_, ?_⟩
    · exact List.mem_map_of_mem (nullifyParent id)
        (List.mem_filter.mpr ⟨hc, by simp [hcid]⟩)
    · unfold nullifyParent
      rw [if_pos (by simp [hpar])]
    · unfold nullifyParent
      rw [if_pos (by simp [hpar])]
    · unfold nullifyParent
      rw [if_pos (by simp [hpar])]

/-- C1 witness: deleting plant 1 of the sample store. -/
theorem delete_plant_cascade_keeps_children_ok :
    findPlant s4 1 = some fern ∧ PlantDeleteSpec s4 1 :=
  ⟨rfl, delete_plant_cascade_keeps_children s4 1 fern rfl⟩

/-- C2: creating a watering, note or photo whose plant_id matches no plant
fails with NotFound and creates no record. -/
theorem create_orphan_guard (s : Store) (fs : FileSys) (win : WateringCreate)
    (nin : NoteCreate) (pin : PhotoCreate) (i j k : Nat)
    (hw : findPlant s win.plant_id = none)
    (hn : findPlant s nin.plant_id = none)
    (hp : findPlant s pin.plant_id = none) :
    CreateGuardSpec s fs win nin pin i j k := by
  unfold CreateGuardSpec
  refine ⟨?_, ?_, ?_⟩
  · simp only [create_watering, hw]
    exact ⟨_, rfl⟩
  · simp only [create_note, hn]
    exact ⟨_, rfl⟩
  · simp only [add_photo, hp]
    exact ⟨_, rfl⟩

/-- C2 witness: plant 77 does not exist in the sample store. -/
theorem create_orphan_guard_ok :
    findPlant s4 77 = none ∧ CreateGuardSpec s4 ⟨[]⟩ ⟨77, 5⟩ ⟨77, 5, "hm"⟩ ⟨77, 5⟩ 9 9 9 :=
  ⟨rfl, create_orphan_guard s4 ⟨[]⟩ ⟨77, 5⟩ ⟨77, 5, "hm"⟩ ⟨77, 5⟩ 9 9 9 rfl rfl rfl⟩

/-- C3: the spec promises partial note updates, but schema.NoteUpdate
declares all three fields required, so a date-only body is rejected by
request validation and nothing at all is changed. -/
theorem note_update_date_only_rejected :
    patch_note s4 1 ⟨none, some 42, none⟩ = (Except.error ApiError.validation, s4) :=
  rfl

/-- C4: the nested listings of an existing plant page through its records
sorted by date descending with offset start and count limit; defaults are
start 0 and limit 1 (photos) or 3 (waterings, notes); start 1, limit 2
yields exactly the 2nd and 3rd most recent waterings. -/
theorem nested_listing_pages (s : Store) (id start limit : Nat) (p : Plant)
    (h : findPlant s id = some p) : ListingSpec s id start limit := by
  unfold ListingSpec
  refine ⟨?_, ?_, ?_, sortDesc_pairwise _ _, sortDesc_pairwise _ _,
    sortDesc_pairwise _ _, sortDesc_perm _ _, ?_, ?_, ?_, ?_⟩
  · simp only [get_plant_waterings, h]
  · simp only [get_plant_photos, h]
  · simp only [get_plant_notes, h]
  · simp only [get_plant_waterings_default, get_plant_waterings, h]
  · simp only [get_plant_photos_default, get_plant_photos, h]
  · simp only [get_plant_notes_default, get_plant_notes, h]
  · intro a b c rest hsort
    simp only [get_plant_waterings, h, hsort]
    rfl

/-- C4 witness: the waterings page of plant 1 with start 1 and limit 2 on
the sample store. -/
theorem nested_listing_pages_ok :
    findPlant s4 1 = some fern ∧ ListingSpec s4 1 1 2 :=
  ⟨rfl, nested_listing_pages s4 1 1 2 fern rfl⟩

/-- C5: the defaults of a name-only plant creation are frozen at module
import, because date.today() in schema.py and models.py runs once when the
class bodies execute: a plant created on day 101 by a service imported on
day 100 gets acquisition_date 100, not the creation day; the HEALTHY
default, by contrast, holds. -/
theorem create_plant_defaults_frozen_at_import :
    ((create_plant 100 emptyStore (namedOnlyPayload "Fern") 1).1.acquisition_date
      = 100) ∧
    ((create_plant 100 emptyStore (namedOnlyPayload "Fern") 1).1.acquisition_date
      ≠ 101) ∧
    ((create_plant 100 emptyStore (namedOnlyPayload "Fern") 1).1.health_status
      = HealthStatus.healthy) :=
  ⟨rfl, by decide, rfl⟩

/-- C6: the note-creation endpoint is declared with
response_model=schema.WateringResponse, which has no note field, so two
creations differing only in their note text get identical responses even
though the stored records differ: the response is not the full created
record. -/
theorem create_note_response_omits_note_text :
    ((create_note s4 ⟨1, 12, "repotted"⟩ 99).1 =
      (create_note s4 ⟨1, 12, "mealybugs on stems"⟩ 99).1) ∧
    ((create_note s4 ⟨1, 12, "repotted"⟩ 99).2.notes ≠
      (create_note s4 ⟨1, 12, "mealybugs on stems"⟩ 99).2.notes) :=
  ⟨rfl, by decide⟩

/-- C7: deleting an existing photo always removes the row and succeeds, for
every file-system state and every outcome of the archive move; a missing
backing file leaves the file system untouched and surfaces nothing. -/
theorem delete_photo_always_succeeds (s : Store) (fs : FileSys) (moveOk : Bool)
    (id : Nat) (p : Photo)
    (h : s.photos.find? (fun q => q.id == id) = some p) :
    PhotoDeleteSpec s fs moveOk id p := by
  unfold PhotoDeleteSpec delete_photo
  rw [h]
  refine ⟨rfl, ?_, ?_⟩
  · exact filter_after_remove (fun q => q.id) id s.photos
  · intro hmiss
    unfold archive_deleted_photo
    rw [hmiss]
    simp

/-- C7 witness: photo 1 of the sample store, against a file system that does
not hold its backing file, with the move doomed to fail. -/
theorem delete_photo_always_succeeds_ok :
    s4.photos.find? (fun q => q.id == 1) = some ph1 ∧
    PhotoDeleteSpec s4 ⟨["photos/other"]⟩ false 1 ph1 :=
  ⟨rfl, delete_photo_always_succeeds s4 ⟨["photos/other"]⟩ false 1 ph1 rfl⟩

/-- C8 counterexample: when the backing call raises a transport error
instead of completing, the resolver propagates that error rather than
returning the empty result the claim promises for every unsuccessful
outcome. -/
theorem get_plants_error_outcome_surfaces :
    get_plants (Except.error TransportError.connError) =
      Except.error TransportError.connError ∧
    get_plants (Except.error TransportError.connError) ≠
      Except.ok ([] : List GqlPlant) := by
  refine ⟨rfl, ?_⟩
  simp [get_plants]

/-- C8 (amended): whenever the backing call completes with a response whose
status is not 200, the resolver returns the empty list and surfaces no
error. -/
theorem get_plants_empty_on_http_failure (resp : HttpResponse)
    (h : resp.status_code ≠ 200) :
    get_plants (Except.ok resp) = Except.ok [] := by
  unfold get_plants
  simp [h]

/-- C8 witness: a 500 response with a non-empty body still yields the empty
list. -/
theorem get_plants_empty_on_http_failure_ok :
    (HttpResponse.mk 500 [⟨1, "Fern", []⟩]).status_code ≠ 200 ∧
    get_plants (Except.ok (HttpResponse.mk 500 [⟨1, "Fern", []⟩])) =
      Except.ok [] :=
  ⟨by decide, get_plants_empty_on_http_failure (HttpResponse.mk 500 [⟨1, "Fern", []⟩])
    (by decide)⟩

/-- C9: reading a missing note reports the wrong entity kind: the 404 detail
of get_note_by_id says Plant, not Note, so the message does not name the
kind of the entity that was not found. -/
theorem get_note_by_id_misreports_entity_kind :
    get_note_by_id emptyStore 7 =
      Except.error (ApiError.notFound "Plant with id 7 not found.") ∧
    ("Plant with id 7 not found." ≠ "Note with id 7 not found.") :=
  ⟨rfl, by decide⟩

/-- C10: a full-body note update is applied without any existence check on
its plant_id, so an existing note can be re-pointed at a plant id no plant
has while the operation succeeds. -/
theorem update_note_skips_plant_check (s : Store) (id pid : Nat) (d : Date)
    (t : String) (n : Note)
    (h1 : s.notes.find? (fun m => m.id == id) = some n)
    (h2 : findPlant s pid = none) :
    NoteRepointSpec s id pid d t n.id := by
  have hpred := List.find?_some h1
  have hmem : n ∈ s.notes := List.mem_of_find?_eq_some h1
  unfold NoteRepointSpec patch_note validateNoteUpdate update_note_by_id
  simp only [h1]
  refine ⟨trivial, h2, ⟨n.id, pid, d, t⟩, ?_, rfl, rfl⟩
  have hmap : (fun m => if m.id == id then (⟨n.id, pid, d, t⟩ : Note) else m) n =
      (⟨n.id, pid, d, t⟩ : Note) := by simp [hpred]
  exact List.mem_map.mpr ⟨n, hmem, hmap⟩

/-- C10 witness: note 1 of the sample store is re-pointed at the
nonexistent plant 77. -/
theorem update_note_skips_plant_check_ok :
    s4.notes.find? (fun m => m.id == 1) = some note1 ∧
    findPlant s4 77 = none ∧
    NoteRepointSpec s4 1 77 42 "moved" note1.id :=
  ⟨rfl, rfl, update_note_skips_plant_check s4 1 77 42 "moved" note1 rfl rfl⟩

end Greenhouse
